import Mathlib

/-!
Verification of the voice-capture-to-transcription pipeline of the
Hackathon repository (patient-facing healthcare web app).

The development shallowly embeds the voice-related source files:

* `src/lib/voiceAPI.ts` (main `VoiceAPIService`): adapters
  `transcribeWithOpenAI`, `transcribeWithGemini`, the fallback dispatcher
  `transcribe`, and the recording state machine
  (`startRecording` / `stopRecording` / `ondataavailable`).
* the relay variant of `VoiceAPIService` (second file of the pair): the
  unguarded `startRecording` / `stopRecording`.
* `src/server/index.ts`: the relay's `POST /chat` handler.
* `VoiceIntakeForm` (intake form component): the per-field voice session
  (`startListening` / `stopListening` / the 30-second auto-stop timer),
  including the closure semantics of the scheduled timer callback.

Effectful boundaries (network responses, `getUserMedia`, recorder events)
are passed in explicitly as outcome values, so every function is a pure,
executable Lean definition mirroring the source control flow.
-/

/-! ## JavaScript truthiness helpers

The source branches on JS truthiness of strings (`if (!apiKey)`,
`result.error ||  ...`).  For a string, falsy means the empty string; for
an optional (possibly `undefined`) string, falsy also covers `none`. -/

/-- JS `a || b` for strings: `a` unless `a` is falsy (empty). -/
def jsOrS (a b : String) : String := if a = "" then b else a

/-- JS truthiness of a possibly-undefined string. -/
def jsTruthyOpt : Option String → Bool
  | none => false
  | some s => s ≠ ""

/-- Drop leading whitespace characters from a character list. -/
def trimLeftChars : List Char → List Char
  | [] => []
  | c :: cs => if c.isWhitespace then trimLeftChars cs else c :: cs

/-- JS `String.prototype.trim`: strip whitespace from both ends (kernel-
evaluable, unlike the library trim which recurses on byte positions). -/
def jsTrim (s : String) : String :=
  ⟨trimLeftChars ((trimLeftChars s.data.reverse).reverse)⟩

theorem jsOrS_ne_empty (a b : String) (hb : b ≠ "") : jsOrS a b ≠ "" := by
  unfold jsOrS
  by_cases h : a = "" <;> simp [h, hb]

/-! ## Transcription results and provider configuration

`VoiceTranscriptionResult` is the interface from `src/lib/voiceAPI.ts`:
`{ text: string; confidence?: number; error?: string }`.  Confidence is
modelled as a rational number. -/

structure VoiceTranscriptionResult where
  text : String
  confidence : Option ℚ := none
  error : Option String := none
deriving DecidableEq, Repr

/-- The two provider identifiers accepted by `transcribe`
(`preferredService: 'openai' | 'gemini'`). -/
inductive VoiceService
  | openai
  | gemini
deriving DecidableEq, Repr

/-- `VOICE_API_CONFIG` from `src/lib/supabase.ts`: the two API keys read
from the environment (`import.meta.env.VITE_OPENAI_API_KEY`,
`VITE_GEMINI_API_KEY`).  An environment variable is `string | undefined`,
hence `Option String`; the source tests it with JS truthiness. -/
structure VoiceConfig where
  openaiApiKey : Option String
  geminiApiKey : Option String
deriving DecidableEq, Repr

/-! ## Network outcomes

Each adapter performs one `fetch`.  The possible outcomes, as the source
distinguishes them:
* the `fetch` (or a later `response.json()` on a 2xx response) throws —
  the outer `catch` receives an `Error` with some message;
* `!response.ok`: a non-2xx response with a `status`, a `statusText`, and
  an error body whose `error.message` may or may not be present
  (`response.json().catch(() => ({}))` never throws);
* a 2xx response with a parsed JSON body. -/

/-- Outcome of the OpenAI `fetch`.  On a 2xx response the body's `text`
field (`data.text`) may be absent. -/
inductive FetchOpenAI
  | throwErr (msg : String)
  | httpError (status : Nat) (statusText : String) (errMsg : Option String)
  | okBody (text : Option String)
deriving DecidableEq, Repr

/-- One element of `results[i].alternatives` in the Gemini response body. -/
structure GeminiAlt where
  transcript : Option String
  confidence : Option ℚ
deriving DecidableEq, Repr

/-- One element of `results` in the Gemini response body; `alternatives`
may be absent. -/
structure GeminiEntry where
  alternatives : Option (List GeminiAlt)
deriving DecidableEq, Repr

/-- Outcome of the Gemini `fetch`.  On a 2xx response the body's
`results` array may be absent. -/
inductive FetchGemini
  | throwErr (msg : String)
  | httpError (status : Nat) (statusText : String) (errMsg : Option String)
  | okBody (results : Option (List GeminiEntry))
deriving DecidableEq, Repr

/-! ## The provider adapters (`src/lib/voiceAPI.ts`) -/

/-- `VoiceAPIService.transcribeWithOpenAI`.  If the key is falsy the fixed
not-configured result is returned before any network interaction; a
non-2xx response is turned into a thrown `Error` whose message is caught
by the outer handler; a 2xx body yields `{ text: data.text || const-empty,
confidence: 1.0 }`. -/
def transcribeWithOpenAI (apiKey : Option String) (net : FetchOpenAI) :
    VoiceTranscriptionResult :=
  if ¬ jsTruthyOpt apiKey then
    { text := ""
      error := some "OpenAI API key not configured. Please add VITE_OPENAI_API_KEY to your environment variables." }
  else
    match net with
    | .throwErr msg =>
        { text := ""
          error := some (jsOrS msg "Failed to transcribe audio with OpenAI") }
    | .httpError status statusText errMsg =>
        { text := ""
          error := some (jsOrS
            ("OpenAI API error: " ++ toString status ++ " - "
              ++ jsOrS (errMsg.getD "") statusText)
            "Failed to transcribe audio with OpenAI") }
    | .okBody text? =>
        { text := text?.getD "", confidence := some 1, error := none }

/-- The fixed failure result of `transcribeWithGemini` when `results` is
absent, empty, or its first entry has no (nonempty) `alternatives`. -/
def geminiNoResults : VoiceTranscriptionResult :=
  { text := "", error := some "No transcription results from Gemini" }

/-- `VoiceAPIService.transcribeWithGemini`.  Mirrors the source: missing
key short-circuits; non-2xx throws into the outer catch; on a 2xx body,
`results[0].alternatives[0]` yields `{ transcript || const-empty,
confidence || 0.5 }`, every other shape yields `geminiNoResults`. -/
def transcribeWithGemini (apiKey : Option String) (net : FetchGemini) :
    VoiceTranscriptionResult :=
  if ¬ jsTruthyOpt apiKey then
    { text := ""
      error := some "Gemini API key not configured. Please add VITE_GEMINI_API_KEY to your environment variables." }
  else
    match net with
    | .throwErr msg =>
        { text := ""
          error := some (jsOrS msg "Failed to transcribe audio with Gemini") }
    | .httpError status statusText errMsg =>
        { text := ""
          error := some (jsOrS
            ("Gemini API error: " ++ toString status ++ " - "
              ++ jsOrS (errMsg.getD "") statusText)
            "Failed to transcribe audio with Gemini") }
    | .okBody results? =>
        match results? with
        | some (r :: _) =>
            match r.alternatives with
            | some (a :: _) =>
                { text := a.transcript.getD ""
                  confidence := some
                    (match a.confidence with
                     | none => 1/2
                     | some q => if q = 0 then 1/2 else q)
                  error := none }
            | _ => geminiNoResults
        | _ => geminiNoResults

/-! ## The fallback dispatcher -/

/-- `VoiceAPIService.transcribe`: try the preferred provider; if its
result's `error` is truthy, return the other provider's result. -/
def transcribe (cfg : VoiceConfig) (netO : FetchOpenAI) (netG : FetchGemini)
    (preferredService : VoiceService) : VoiceTranscriptionResult :=
  match preferredService with
  | .openai =>
      let result := transcribeWithOpenAI cfg.openaiApiKey netO
      if ¬ jsTruthyOpt result.error then result
      else transcribeWithGemini cfg.geminiApiKey netG
  | .gemini =>
      let result := transcribeWithGemini cfg.geminiApiKey netG
      if ¬ jsTruthyOpt result.error then result
      else transcribeWithOpenAI cfg.openaiApiKey netO

/-- The result the adapter for a given service produces in a given
configuration and network environment. -/
def adapterResult (cfg : VoiceConfig) (netO : FetchOpenAI)
    (netG : FetchGemini) : VoiceService → VoiceTranscriptionResult
  | .openai => transcribeWithOpenAI cfg.openaiApiKey netO
  | .gemini => transcribeWithGemini cfg.geminiApiKey netG

/-- The single alternate provider of each provider. -/
def otherService : VoiceService → VoiceService
  | .openai => .gemini
  | .gemini => .openai

/-- The API key `VOICE_API_CONFIG` holds for a given service. -/
def keyOf (cfg : VoiceConfig) : VoiceService → Option String
  | .openai => cfg.openaiApiKey
  | .gemini => cfg.geminiApiKey

/-! ### Basic adapter facts -/

theorem openai_error_ne_empty (apiKey : Option String) (net : FetchOpenAI)
    (e : String) (h : (transcribeWithOpenAI apiKey net).error = some e) :
    e ≠ "" := by
  unfold transcribeWithOpenAI at h
  by_cases hk : jsTruthyOpt apiKey
  · cases net with
    | throwErr msg =>
        simp [hk] at h
        subst h
        exact jsOrS_ne_empty _ _ (by decide)
    | httpError status statusText errMsg =>
        simp [hk] at h
        subst h
        exact jsOrS_ne_empty _ _ (by decide)
    | okBody t => simp [hk] at h
  · simp [hk] at h
    subst h
    decide

theorem gemini_error_ne_empty (apiKey : Option String) (net : FetchGemini)
    (e : String) (h : (transcribeWithGemini apiKey net).error = some e) :
    e ≠ "" := by
  unfold transcribeWithGemini at h
  by_cases hk : jsTruthyOpt apiKey
  · cases net with
    | throwErr msg =>
        simp [hk] at h
        subst h
        exact jsOrS_ne_empty _ _ (by decide)
    | httpError status statusText errMsg =>
        simp [hk] at h
        subst h
        exact jsOrS_ne_empty _ _ (by decide)
    | okBody results? =>
        simp [hk] at h
        match results? with
        | none => simp [geminiNoResults] at h; subst h; decide
        | some [] => simp [geminiNoResults] at h; subst h; decide
        | some (r :: rs) =>
            simp at h
            match halts : r.alternatives with
            | none => simp [halts, geminiNoResults] at h; subst h; decide
            | some [] => simp [halts, geminiNoResults] at h; subst h; decide
            | some (a :: as) => simp [halts] at h
  · simp [hk] at h
    subst h
    decide

theorem adapter_error_ne_empty (cfg : VoiceConfig) (netO : FetchOpenAI)
    (netG : FetchGemini) (p : VoiceService) (e : String)
    (h : (adapterResult cfg netO netG p).error = some e) : e ≠ "" := by
  cases p with
  | openai => exact openai_error_ne_empty _ _ _ h
  | gemini => exact gemini_error_ne_empty _ _ _ h

theorem openai_error_empty_text (apiKey : Option String) (net : FetchOpenAI)
    (e : String) (h : (transcribeWithOpenAI apiKey net).error = some e) :
    (transcribeWithOpenAI apiKey net).text = "" := by
  unfold transcribeWithOpenAI at h ⊢
  by_cases hk : jsTruthyOpt apiKey
  · cases net with
    | throwErr msg => simp [hk]
    | httpError status statusText errMsg => simp [hk]
    | okBody t => simp [hk] at h
  · simp [hk]

theorem gemini_error_empty_text (apiKey : Option String) (net : FetchGemini)
    (e : String) (h : (transcribeWithGemini apiKey net).error = some e) :
    (transcribeWithGemini apiKey net).text = "" := by
  unfold transcribeWithGemini at h ⊢
  by_cases hk : jsTruthyOpt apiKey
  · cases net with
    | throwErr msg => simp [hk]
    | httpError status statusText errMsg => simp [hk]
    | okBody results? =>
        simp [hk] at h ⊢
        match results? with
        | none => simp [geminiNoResults]
        | some [] => simp [geminiNoResults]
        | some (r :: rs) =>
            match halts : r.alternatives with
            | none => simp [halts, geminiNoResults]
            | some [] => simp [halts, geminiNoResults]
            | some (a :: as) => simp [halts] at h
  · simp [hk]

theorem adapter_error_empty_text (cfg : VoiceConfig) (netO : FetchOpenAI)
    (netG : FetchGemini) (p : VoiceService) (e : String)
    (h : (adapterResult cfg netO netG p).error = some e) :
    (adapterResult cfg netO netG p).text = "" := by
  cases p with
  | openai => exact openai_error_empty_text _ _ _ h
  | gemini => exact gemini_error_empty_text _ _ _ h

/-- The fixed result each adapter returns when its API key is missing
(before any network interaction). -/
def notConfiguredResult : VoiceService → VoiceTranscriptionResult
  | .openai =>
      { text := ""
        error := some "OpenAI API key not configured. Please add VITE_OPENAI_API_KEY to your environment variables." }
  | .gemini =>
      { text := ""
        error := some "Gemini API key not configured. Please add VITE_GEMINI_API_KEY to your environment variables." }

/-- Whenever the preferred adapter's result carries an error,
`transcribe` returns the alternate adapter's result. -/
theorem transcribe_fallback_of_error (cfg : VoiceConfig) (netO : FetchOpenAI)
    (netG : FetchGemini) (p : VoiceService) (e : String)
    (h : (adapterResult cfg netO netG p).error = some e) :
    transcribe cfg netO netG p = adapterResult cfg netO netG (otherService p) := by
  have hne := adapter_error_ne_empty cfg netO netG p e h
  cases p with
  | openai =>
      simp only [adapterResult] at h
      unfold transcribe
      simp [h, jsTruthyOpt, hne, adapterResult, otherService]
  | gemini =>
      simp only [adapterResult] at h
      unfold transcribe
      simp [h, jsTruthyOpt, hne, adapterResult, otherService]

/-! ## Claims about the fallback dispatcher -/

/-- C1: whenever the preferred provider's adapter fails (its result
carries an error) and the single alternate provider's adapter succeeds
(no error), `transcribe` returns exactly the alternate adapter's result:
the fallback is transparent and runs in the fixed order
preferred-then-other. -/
theorem transcribe_fallback_transparent (cfg : VoiceConfig)
    (netO : FetchOpenAI) (netG : FetchGemini) (p : VoiceService) (e : String)
    (hfail : (adapterResult cfg netO netG p).error = some e)
    (hok : (adapterResult cfg netO netG (otherService p)).error = none) :
    transcribe cfg netO netG p = adapterResult cfg netO netG (otherService p) :=
  transcribe_fallback_of_error cfg netO netG p e hfail

theorem transcribe_fallback_transparent_witness :
    (adapterResult ⟨none, some "k"⟩ (.okBody none)
        (.okBody (some [⟨some [⟨some "hi", some 1⟩]⟩])) .openai).error
      = some "OpenAI API key not configured. Please add VITE_OPENAI_API_KEY to your environment variables."
    ∧ (adapterResult ⟨none, some "k"⟩ (.okBody none)
        (.okBody (some [⟨some [⟨some "hi", some 1⟩]⟩])) .gemini).error = none
    ∧ transcribe ⟨none, some "k"⟩ (.okBody none)
        (.okBody (some [⟨some [⟨some "hi", some 1⟩]⟩])) .openai
      = adapterResult ⟨none, some "k"⟩ (.okBody none)
        (.okBody (some [⟨some [⟨some "hi", some 1⟩]⟩])) .gemini :=
  ⟨rfl, rfl,
    transcribe_fallback_transparent ⟨none, some "k"⟩ (.okBody none)
      (.okBody (some [⟨some [⟨some "hi", some 1⟩]⟩])) .openai _ rfl rfl⟩

/-- C2: when both providers fail, the value `transcribe` returns has
empty `text` and carries the last-tried (alternate) provider's error
message.  (The source has no separate enum of error kinds: the
"AllProvidersFailed" classification of the spec is exactly this carried
message of the provider tried last.) -/
theorem transcribe_both_fail (cfg : VoiceConfig) (netO : FetchOpenAI)
    (netG : FetchGemini) (p : VoiceService) (e1 e2 : String)
    (h1 : (adapterResult cfg netO netG p).error = some e1)
    (h2 : (adapterResult cfg netO netG (otherService p)).error = some e2) :
    (transcribe cfg netO netG p).text = ""
    ∧ (transcribe cfg netO netG p).error = some e2 := by
  rw [transcribe_fallback_of_error cfg netO netG p e1 h1]
  exact ⟨adapter_error_empty_text _ _ _ _ _ h2, h2⟩

theorem transcribe_both_fail_witness :
    (adapterResult ⟨none, none⟩ (.okBody none) (.okBody none) .openai).error
      = some "OpenAI API key not configured. Please add VITE_OPENAI_API_KEY to your environment variables."
    ∧ (adapterResult ⟨none, none⟩ (.okBody none) (.okBody none) .gemini).error
      = some "Gemini API key not configured. Please add VITE_GEMINI_API_KEY to your environment variables."
    ∧ (transcribe ⟨none, none⟩ (.okBody none) (.okBody none) .openai).text = ""
    ∧ (transcribe ⟨none, none⟩ (.okBody none) (.okBody none) .openai).error
      = some "Gemini API key not configured. Please add VITE_GEMINI_API_KEY to your environment variables." :=
  ⟨rfl, rfl,
    (transcribe_both_fail ⟨none, none⟩ (.okBody none) (.okBody none)
      .openai _ _ rfl rfl).1,
    (transcribe_both_fail ⟨none, none⟩ (.okBody none) (.okBody none)
      .openai _ _ rfl rfl).2⟩

/-- C5: a provider whose credential is absent yields the fixed
not-configured failure result, the adapter's value does not depend on any
network outcome (no request is issued), and `transcribe` immediately
falls back to the alternate provider's result. -/
theorem not_configured_immediate_fallback (cfg : VoiceConfig)
    (netO netO2 : FetchOpenAI) (netG netG2 : FetchGemini) (p : VoiceService)
    (hkey : jsTruthyOpt (keyOf cfg p) = false) :
    adapterResult cfg netO netG p = notConfiguredResult p
    ∧ adapterResult cfg netO netG p = adapterResult cfg netO2 netG2 p
    ∧ transcribe cfg netO netG p = adapterResult cfg netO netG (otherService p) := by
  have hfix : adapterResult cfg netO netG p = notConfiguredResult p := by
    cases p with
    | openai =>
        simp only [keyOf] at hkey
        unfold adapterResult transcribeWithOpenAI notConfiguredResult
        simp [hkey]
    | gemini =>
        simp only [keyOf] at hkey
        unfold adapterResult transcribeWithGemini notConfiguredResult
        simp [hkey]
  have hfix2 : adapterResult cfg netO2 netG2 p = notConfiguredResult p := by
    cases p with
    | openai =>
        simp only [keyOf] at hkey
        unfold adapterResult transcribeWithOpenAI notConfiguredResult
        simp [hkey]
    | gemini =>
        simp only [keyOf] at hkey
        unfold adapterResult transcribeWithGemini notConfiguredResult
        simp [hkey]
  have herr : (adapterResult cfg netO netG p).error
      = (notConfiguredResult p).error := by rw [hfix]
  refine ⟨hfix, hfix.trans hfix2.symm, ?_⟩
  cases p with
  | openai =>
      exact transcribe_fallback_of_error cfg netO netG .openai _
        (by rw [herr]; rfl)
  | gemini =>
      exact transcribe_fallback_of_error cfg netO netG .gemini _
        (by rw [herr]; rfl)

theorem not_configured_immediate_fallback_witness :
    jsTruthyOpt (keyOf ⟨none, some "k"⟩ .openai) = false
    ∧ adapterResult ⟨none, some "k"⟩ (.okBody (some "never sent"))
        (.okBody none) .openai = notConfiguredResult .openai
    ∧ adapterResult ⟨none, some "k"⟩ (.okBody (some "never sent"))
        (.okBody none) .openai
      = adapterResult ⟨none, some "k"⟩ (.throwErr "network down")
        (.okBody none) .openai
    ∧ transcribe ⟨none, some "k"⟩ (.okBody (some "never sent"))
        (.okBody none) .openai
      = adapterResult ⟨none, some "k"⟩ (.okBody (some "never sent"))
        (.okBody none) .gemini := by
  refine ⟨rfl, ?_⟩
  have h := not_configured_immediate_fallback ⟨none, some "k"⟩
    (.okBody (some "never sent")) (.throwErr "network down")
    (.okBody none) (.okBody none) .openai rfl
  exact ⟨h.1, h.2.1, h.2.2⟩

/-- C10: when the preferred provider's adapter returns a result with no
error — even with empty text ("no speech detected") — `transcribe`
returns that result as-is; the fallback is triggered solely by the
presence of an error.  (The right-hand side does not mention the
alternate provider's network outcome at all, so the alternate is never
consulted.) -/
theorem transcribe_no_fallback_without_error (cfg : VoiceConfig)
    (netO : FetchOpenAI) (netG : FetchGemini) (p : VoiceService)
    (h : (adapterResult cfg netO netG p).error = none) :
    transcribe cfg netO netG p = adapterResult cfg netO netG p := by
  cases p with
  | openai =>
      simp only [adapterResult] at h ⊢
      unfold transcribe
      simp [h, jsTruthyOpt]
  | gemini =>
      simp only [adapterResult] at h ⊢
      unfold transcribe
      simp [h, jsTruthyOpt]

theorem transcribe_no_fallback_without_error_witness :
    (adapterResult ⟨some "k", none⟩ (.okBody (some "")) (.okBody none)
        .openai).error = none
    ∧ (adapterResult ⟨some "k", none⟩ (.okBody (some "")) (.okBody none)
        .openai).text = ""
    ∧ transcribe ⟨some "k", none⟩ (.okBody (some "")) (.okBody none) .openai
      = adapterResult ⟨some "k", none⟩ (.okBody (some "")) (.okBody none)
        .openai :=
  ⟨rfl, rfl,
    transcribe_no_fallback_without_error ⟨some "k", none⟩
      (.okBody (some "")) (.okBody none) .openai rfl⟩

/-! ## Claim C8: empty Gemini `results` array -/

/-- C8 counterexample: a 200-status Gemini body whose `results` array is
empty does NOT produce a non-error "no transcript" outcome — the adapter
returns a result carrying an error, which `transcribe` treats as a
provider failure (triggering fallback). -/
theorem gemini_empty_results_is_error :
    transcribeWithGemini (some "key") (.okBody (some []))
      = { text := "", confidence := none
          error := some "No transcription results from Gemini" }
    ∧ (transcribeWithGemini (some "key") (.okBody (some []))).error ≠ none :=
  ⟨rfl, by decide⟩

/-- C8 (amended): for every configured key, a 200-status Gemini body with
an empty `results` array yields the failure result `geminiNoResults`
(empty text, error "No transcription results from Gemini"); the source
treats it as a provider failure, not as a non-error outcome. -/
theorem gemini_empty_results_failure (apiKey : Option String)
    (hk : jsTruthyOpt apiKey = true) :
    transcribeWithGemini apiKey (.okBody (some [])) = geminiNoResults := by
  unfold transcribeWithGemini
  simp [hk]

theorem gemini_empty_results_failure_witness :
    jsTruthyOpt (some "key") = true
    ∧ transcribeWithGemini (some "key") (.okBody (some [])) = geminiNoResults :=
  ⟨rfl, gemini_empty_results_failure (some "key") rfl⟩

/-! ## The relay server (`src/server/index.ts`, `POST /chat`)

The handler reads `{ message, audioBase64 }` from the JSON body (each
field possibly absent), builds the prompt, and either answers `400`
without contacting the model, or forwards `{model, prompt, stream:false}`
to the local generation endpoint.  The upstream interaction is passed in
as an outcome value; `forwardedPrompt = none` means no upstream request
was issued. -/

/-- Request body of `POST /chat`. -/
structure ChatRequestBody where
  message : Option String
  audioBase64 : Option String
deriving DecidableEq, Repr

/-- Outcome of the relay's `fetch` to the local generation model:
either the call (or its JSON parse) throws, or a parsed body whose
`response` field may be absent. -/
inductive OllamaOutcome
  | throwErr (msg : String)
  | okBody (response : Option String)
deriving DecidableEq, Repr

/-- What the handler replies: HTTP status, the `response` field of the
JSON reply, and the prompt forwarded upstream (`none` if the local model
was never contacted). -/
structure ChatReply where
  status : Nat
  response : String
  forwardedPrompt : Option String
deriving DecidableEq, Repr

/-- The `POST /chat` handler of `src/server/index.ts`. -/
def chatHandler (body : ChatRequestBody) (upstream : OllamaOutcome) :
    ChatReply :=
  let prompt : Option String :=
    if jsTruthyOpt body.audioBase64 then
      some ("Transcribe this patient audio (base64-encoded): "
        ++ body.audioBase64.getD "")
    else body.message
  if ¬ jsTruthyOpt prompt then
    { status := 400, response := "No message or audioBase64 provided."
      forwardedPrompt := none }
  else
    match upstream with
    | .throwErr _ =>
        { status := 500, response := "Error: Unable to reach AI model."
          forwardedPrompt := prompt }
    | .okBody resp =>
        { status := 200, response := jsTrim (resp.getD "")
          forwardedPrompt := prompt }

/-- Serialization of `res.json({ response })` for reply strings
(quote and backslash escaped; the replies below contain neither). -/
def renderChatJson (r : ChatReply) : String :=
  "\x7b\"response\":\""
    ++ String.join (r.response.toList.map (fun c =>
        if c = '"' then "\\\""
        else if c = '\\' then "\\\\"
        else String.singleton c))
    ++ "\"\x7d"

/-- C7: a `POST /chat` request with neither a `message` field nor an
`audioBase64` field is answered with HTTP status 400 and the exact JSON
body `\x7b"response":"No message or audioBase64 provided."\x7d`, and no
request is forwarded to the local generation model — whatever the
upstream would have answered. -/
theorem chat_missing_fields_400 (upstream : OllamaOutcome) :
    chatHandler ⟨none, none⟩ upstream
      = { status := 400, response := "No message or audioBase64 provided."
          forwardedPrompt := none }
    ∧ renderChatJson (chatHandler ⟨none, none⟩ upstream)
      = "\x7b\"response\":\"No message or audioBase64 provided.\"\x7d" := by
  constructor
  · cases upstream <;> rfl
  · cases upstream <;> rfl

/-! ## Audio capture (`VoiceAPIService.startRecording` / `stopRecording`)

The repository contains two versions of `VoiceAPIService`: the main one
in `src/lib/voiceAPI.ts` (guarded) and a relay-oriented variant
(unguarded `startRecording`, weaker `stopRecording` guard).  Both operate
on the same mutable fields (`mediaRecorder`, `audioChunks`,
`isRecording`), modelled here as one explicit state.

Hardware streams are modelled by their tracks' stop counts: a stream
acquired by `getUserMedia` starts with every track at count 0, and each
`track.stop()` increments it.  `streams` lists every stream ever
acquired, newest first; the `MediaRecorder`, when one was created, is
bound to the head stream.  A stream is *open* while some track has not
been stopped. -/

/-- A hardware media stream, by its tracks' `stop()` call counts. -/
structure StreamS where
  tracks : List Nat
deriving DecidableEq, Repr

/-- A stream is open while some track has never been stopped. -/
def StreamS.isOpen (st : StreamS) : Bool := st.tracks.any (fun c => c = 0)

/-- `MediaRecorder.state` (only the two values the model needs). -/
inductive RecState
  | recording
  | inactive
deriving DecidableEq, Repr

/-- The mutable fields of `VoiceAPIService`, plus the acquired streams.
`streams = []` means `mediaRecorder` is still `null` (the source never
resets it to `null` once set, so a recorder exists iff some stream was
acquired). -/
structure AudioState where
  streams : List StreamS
  recState : RecState
  mimeType : String
  audioChunks : List String
  isRecording : Bool
deriving DecidableEq, Repr

/-- Fresh service instance: no recorder, no chunks, not recording. -/
def initialAudioState : AudioState :=
  { streams := [], recState := .inactive, mimeType := ""
    audioChunks := [], isRecording := false }

/-- Number of currently open hardware streams. -/
def openStreamCount (s : AudioState) : Nat :=
  (s.streams.filter StreamS.isOpen).length

/-- Outcome of `navigator.mediaDevices.getUserMedia`: denial/device error
(throws) or a stream with the given number of tracks. -/
inductive GumOutcome
  | denied (msg : String)
  | granted (numTracks : Nat)
deriving DecidableEq, Repr

/-- Which encodings `MediaRecorder.isTypeSupported` reports, for the
preference-ordered selection in the main `startRecording`. -/
structure MimeSupport where
  webmOpus : Bool
  mp4 : Bool
  wav : Bool
deriving DecidableEq, Repr

/-- The main variant's encoding choice: opus-in-webm, then mp4, then wav,
then the generic default. -/
def chooseMime (sup : MimeSupport) : String :=
  if sup.webmOpus then "audio/webm;codecs=opus"
  else if sup.mp4 then "audio/mp4"
  else if sup.wav then "audio/wav"
  else "audio/webm"

/-- The finalized audio object: `new Blob(audioChunks, { type })`. -/
structure BlobM where
  parts : List String
  type : String
deriving DecidableEq, Repr

/-- The `ondataavailable` handler: pushes the chunk when its size is
positive. -/
def pushChunk (s : AudioState) (data : String) : AudioState :=
  if data.length > 0 then { s with audioChunks := s.audioChunks ++ [data] }
  else s

/-- How the pending `stopRecording` promise ends up, together with the
service state afterwards. -/
inductive StopOutcome
  | rejected (msg : String) (s : AudioState)
  | resolved (sample : BlobM) (s : AudioState)
  | pending (s : AudioState)
deriving DecidableEq, Repr

/-- The state component of a `StopOutcome`. -/
def StopOutcome.state : StopOutcome → AudioState
  | .rejected _ s => s
  | .resolved _ s => s
  | .pending s => s

/-- Which recorder event settles the stop: the `onstop` event, or the
`onerror` event with an error value. -/
inductive RecorderStopEvent
  | stopped
  | errored (msg : String)
deriving DecidableEq, Repr

namespace VoiceMain

/-- Main `VoiceAPIService.startRecording`: rejects when already
recording; otherwise acquires a stream (or propagates the `getUserMedia`
error), picks the encoding, creates the recorder on the new stream,
resets `audioChunks`, starts, and sets `isRecording`. -/
def startRecording (s : AudioState) (gum : GumOutcome) (sup : MimeSupport) :
    Except String AudioState :=
  if s.isRecording then .error "Already recording"
  else
    match gum with
    | .denied msg => .error msg
    | .granted n =>
        .ok { streams := ⟨List.replicate n 0⟩ :: s.streams
              recState := .recording
              mimeType := chooseMime sup
              audioChunks := []
              isRecording := true }

/-- Main `VoiceAPIService.stopRecording`: rejects when no recorder was
ever created or `isRecording` is false; on the `onstop` event it builds
the blob from the buffered chunks, clears `isRecording`, and stops every
track of the recorder's stream; on the `onerror` event it rejects with
the event's error and stops no track (the source's error path skips the
track-release loop). -/
def stopRecording (s : AudioState) (ev : RecorderStopEvent) : StopOutcome :=
  match s.streams, s.isRecording with
  | [], _ => .rejected "Not currently recording" s
  | _ :: _, false => .rejected "Not currently recording" s
  | st :: rest, true =>
      match ev with
      | .errored msg =>
          .rejected ("Recording error: " ++ msg)
            { s with recState := .inactive }
      | .stopped =>
          .resolved ⟨s.audioChunks, s.mimeType⟩
            { s with streams := ⟨st.tracks.map (fun c => c + 1)⟩ :: rest
                     recState := .inactive
                     isRecording := false }

end VoiceMain

namespace VoiceRelay

/-- Relay-variant `startRecording`: NO already-recording guard — it
unconditionally acquires a fresh stream, creates a new recorder on it
(with the fixed webm type), resets the chunk buffer, starts, and sets
`isRecording`.  A previously open stream is simply abandoned. -/
def startRecording (s : AudioState) (gum : GumOutcome) :
    Except String AudioState :=
  match gum with
  | .denied msg => .error msg
  | .granted n =>
      .ok { streams := ⟨List.replicate n 0⟩ :: s.streams
            recState := .recording
            mimeType := "audio/webm"
            audioChunks := []
            isRecording := true }

/-- Relay-variant `stopRecording`: rejects only when `mediaRecorder` is
still `null`.  Otherwise it calls `mediaRecorder.stop()`; when the
recorder is already inactive (e.g. after a completed stop) the platform
call is a no-op, the `onstop` handler never fires again, and the promise
never settles — modelled as `pending`.  On a recording recorder, `onstop`
builds the blob, clears `isRecording`, and stops the stream's tracks. -/
def stopRecording (s : AudioState) : StopOutcome :=
  match s.streams with
  | [] => .rejected "Not recording" s
  | st :: rest =>
      match s.recState with
      | .inactive => .pending s
      | .recording =>
          .resolved ⟨s.audioChunks, s.mimeType⟩
            { s with streams := ⟨st.tracks.map (fun c => c + 1)⟩ :: rest
                     recState := .inactive
                     isRecording := false }

end VoiceRelay

/-! ### Reachability and the single-stream invariant (main variant) -/

/-- One step of the main service: a start attempt (successful or thrown),
a data chunk arriving, or a settled/failed stop. -/
inductive MainStep : AudioState → AudioState → Prop
  | startOk (s s2 : AudioState) (gum : GumOutcome) (sup : MimeSupport)
      (h : VoiceMain.startRecording s gum sup = .ok s2) : MainStep s s2
  | startErr (s : AudioState) (gum : GumOutcome) (sup : MimeSupport)
      (e : String) (h : VoiceMain.startRecording s gum sup = .error e) :
      MainStep s s
  | chunk (s : AudioState) (d : String) : MainStep s (pushChunk s d)
  | stop (s : AudioState) (ev : RecorderStopEvent) :
      MainStep s (VoiceMain.stopRecording s ev).state

/-- States of the main service reachable from a fresh instance. -/
def MainReachable (s : AudioState) : Prop :=
  Relation.ReflTransGen MainStep initialAudioState s

/-- Invariant of the main service: every track is stopped at most once;
while recording, the head stream's tracks are all unstopped and the older
streams are all closed; while not recording, every stream is closed. -/
def MainInv (s : AudioState) : Prop :=
  (∀ st ∈ s.streams, ∀ c ∈ st.tracks, c ≤ 1)
  ∧ (s.isRecording = true →
      ∃ st rest, s.streams = st :: rest
        ∧ (∀ c ∈ st.tracks, c = 0)
        ∧ (∀ st2 ∈ rest, st2.isOpen = false))
  ∧ (s.isRecording = false → ∀ st ∈ s.streams, st.isOpen = false)

theorem mainInv_init : MainInv initialAudioState := by
  refine ⟨?_, ?_, ?_⟩ <;> simp [initialAudioState]

theorem mainInv_step (s s2 : AudioState) (h : MainStep s s2)
    (hinv : MainInv s) : MainInv s2 := by
  obtain ⟨hle, hrec, hnot⟩ := hinv
  cases h with
  | startOk s2 gum sup h =>
      unfold VoiceMain.startRecording at h
      cases hb : s.isRecording with
      | true => rw [hb] at h; simp at h
      | false =>
          rw [hb] at h
          cases gum with
          | denied msg => simp at h
          | granted n =>
              simp at h
              subst h
              refine ⟨?_, ?_, ?_⟩
              · intro st hst c hc
                rcases List.mem_cons.mp hst with h1 | h1
                · subst h1
                  simp only at hc
                  have := List.eq_of_mem_replicate hc
                  omega
                · exact hle st h1 c hc
              · intro _
                refine ⟨⟨List.replicate n 0⟩, s.streams, rfl, ?_, ?_⟩
                · intro c hc
                  simpa using List.eq_of_mem_replicate hc
                · intro st2 h2
                  exact hnot hb st2 h2
              · intro hfalse
                simp at hfalse
  | startErr gum sup e h => exact ⟨hle, hrec, hnot⟩
  | chunk d =>
      unfold pushChunk
      by_cases hd : d.length > 0
      · simp only [hd, if_true]
        exact ⟨hle, hrec, hnot⟩
      · simp only [hd, if_false]
        exact ⟨hle, hrec, hnot⟩
  | stop ev =>
      unfold VoiceMain.stopRecording
      cases hstr : s.streams with
      | nil => exact ⟨hle, hrec, hnot⟩
      | cons st rest =>
          cases hb : s.isRecording with
          | false => exact ⟨hle, hrec, hnot⟩
          | true =>
              obtain ⟨st0, rest0, hstr0, hzero, hclosed⟩ := hrec hb
              rw [hstr] at hstr0
              injection hstr0 with hst0 hrest0
              subst hst0
              subst hrest0
              cases ev with
              | errored msg =>
                  refine ⟨?_, ?_, ?_⟩
                  · intro st2 h2 c hc
                    exact hle st2 (by rw [hstr]; exact h2) c hc
                  · intro _
                    exact ⟨st, rest, rfl, hzero, hclosed⟩
                  · intro hfalse
                    exact Bool.noConfusion hfalse
              | stopped =>
                  refine ⟨?_, ?_, ?_⟩
                  · intro st2 h2 c hc
                    rcases List.mem_cons.mp h2 with h1 | h1
                    · subst h1
                      simp only [List.mem_map] at hc
                      obtain ⟨c0, hc0, hcc⟩ := hc
                      have := hzero c0 hc0
                      omega
                    · exact hle st2 (by rw [hstr]; exact List.mem_cons_of_mem _ h1) c hc
                  · intro hfalse
                    exact Bool.noConfusion hfalse
                  · intro _ st2 h2
                    rcases List.mem_cons.mp h2 with h1 | h1
                    · subst h1
                      rw [Bool.eq_false_iff]
                      intro hopen
                      unfold StreamS.isOpen at hopen
                      simp only [List.any_eq_true, List.mem_map,
                        decide_eq_true_eq] at hopen
                      obtain ⟨c, ⟨c0, hc0, hcc⟩, hc⟩ := hopen
                      omega
                    · exact hclosed st2 h1

theorem mainInv_reachable (s : AudioState) (h : MainReachable s) :
    MainInv s := by
  induction h with
  | refl => exact mainInv_init
  | tail hsteps hstep ih => exact mainInv_step _ _ hstep ih

/-! ## Claim C3: at most one active recording stream -/

/-- C3 counterexample: in the relay variant of the service,
`startRecording` has no already-recording guard, so a second start while
a recording is open succeeds (no `AlreadyRecordingError`) and leaves TWO
open hardware streams. -/
theorem relay_double_start_two_streams :
    VoiceRelay.startRecording initialAudioState (.granted 1)
      = .ok ⟨[⟨[0]⟩], .recording, "audio/webm", [], true⟩
    ∧ (⟨[⟨[0]⟩], .recording, "audio/webm", [], true⟩ : AudioState).isRecording
        = true
    ∧ VoiceRelay.startRecording
        ⟨[⟨[0]⟩], .recording, "audio/webm", [], true⟩ (.granted 1)
      = .ok ⟨[⟨[0]⟩, ⟨[0]⟩], .recording, "audio/webm", [], true⟩
    ∧ openStreamCount ⟨[⟨[0]⟩, ⟨[0]⟩], .recording, "audio/webm", [], true⟩
        = 2 :=
  ⟨rfl, rfl, rfl, rfl⟩

/-- C3 (amended): in the MAIN audio-capture service every reachable state
has at most one open recording stream, and `startRecording` while a
recording is open fails with the "Already recording" error (the relay
variant lacks this guard, see the counterexample). -/
theorem main_single_stream (s : AudioState) (h : MainReachable s) :
    openStreamCount s ≤ 1
    ∧ (s.isRecording = true → ∀ gum sup,
        VoiceMain.startRecording s gum sup = .error "Already recording") := by
  obtain ⟨hle, hrec, hnot⟩ := mainInv_reachable s h
  constructor
  · cases hb : s.isRecording with
    | false =>
        have hall := hnot hb
        unfold openStreamCount
        have hfil : s.streams.filter StreamS.isOpen = [] := by
          rw [List.filter_eq_nil_iff]
          intro st hst
          simp [hall st hst]
        simp [hfil]
    | true =>
        obtain ⟨st, rest, hstr, hzero, hclosed⟩ := hrec hb
        unfold openStreamCount
        rw [hstr]
        have hfil : rest.filter StreamS.isOpen = [] := by
          rw [List.filter_eq_nil_iff]
          intro st2 hst2
          simp [hclosed st2 hst2]
        rw [List.filter_cons]
        by_cases hop : StreamS.isOpen st = true
        · simp [hop, hfil]
        · simp [hop, hfil]
  · intro hb gum sup
    unfold VoiceMain.startRecording
    rw [hb]
    simp

theorem main_single_stream_witness :
    openStreamCount
        ⟨[⟨[0]⟩], .recording, "audio/webm;codecs=opus", [], true⟩ ≤ 1
    ∧ VoiceMain.startRecording
        ⟨[⟨[0]⟩], .recording, "audio/webm;codecs=opus", [], true⟩
        (.granted 1) ⟨true, true, true⟩
      = .error "Already recording" := by
  have hreach :
      MainReachable ⟨[⟨[0]⟩], .recording, "audio/webm;codecs=opus", [], true⟩ :=
    Relation.ReflTransGen.single
      (MainStep.startOk _ _ (.granted 1) ⟨true, true, true⟩ rfl)
  have h := main_single_stream _ hreach
  exact ⟨h.1, h.2 rfl (.granted 1) ⟨true, true, true⟩⟩

/-! ## Claim C4: stop releases every track exactly once -/

/-- C4 counterexample: in the relay variant, after a recording has been
started and stopped (so no recording is open any more), a further
`stopRecording` call does NOT fail with the not-recording rejection: the
only guard is `mediaRecorder` being `null`, so the call reaches the
platform `stop()` on an inactive recorder and the promise never settles. -/
theorem relay_stop_after_stop_not_rejected :
    VoiceRelay.startRecording initialAudioState (.granted 1)
      = .ok ⟨[⟨[0]⟩], .recording, "audio/webm", [], true⟩
    ∧ VoiceRelay.stopRecording ⟨[⟨[0]⟩], .recording, "audio/webm", [], true⟩
      = .resolved ⟨[], "audio/webm"⟩
          ⟨[⟨[1]⟩], .inactive, "audio/webm", [], false⟩
    ∧ (⟨[⟨[1]⟩], .inactive, "audio/webm", [], false⟩ : AudioState).isRecording
        = false
    ∧ VoiceRelay.stopRecording ⟨[⟨[1]⟩], .inactive, "audio/webm", [], false⟩
      = .pending ⟨[⟨[1]⟩], .inactive, "audio/webm", [], false⟩ :=
  ⟨rfl, rfl, rfl, rfl⟩

/-- C4 (amended): in the MAIN service, every successful `stopRecording`
returns the sample finalized from the buffered chunks with the chosen
media type, increments every track of the recorder's stream from 0 to 1
(each track released exactly once, older streams untouched), and a
further stop — indeed any stop in a non-recording state — is rejected
with the not-recording error, so no track is ever released twice. -/
theorem main_stop_releases_once (s s2 : AudioState) (b : BlobM)
    (hreach : MainReachable s)
    (hres : VoiceMain.stopRecording s RecorderStopEvent.stopped
      = .resolved b s2) :
    b = ⟨s.audioChunks, s.mimeType⟩
    ∧ (∃ st rest, s.streams = st :: rest
        ∧ (∀ c ∈ st.tracks, c = 0)
        ∧ s2.streams = StreamS.mk (st.tracks.map (fun c => c + 1)) :: rest
        ∧ (∀ c ∈ (st.tracks.map (fun c => c + 1)), c = 1))
    ∧ (∀ ev, VoiceMain.stopRecording s2 ev
        = .rejected "Not currently recording" s2)
    ∧ (∀ t : AudioState, t.isRecording = false → ∀ ev,
        VoiceMain.stopRecording t ev
          = .rejected "Not currently recording" t) := by
  obtain ⟨hle, hrec, hnot⟩ := mainInv_reachable s hreach
  unfold VoiceMain.stopRecording at hres
  cases hstr : s.streams with
  | nil => rw [hstr] at hres; simp at hres
  | cons st rest =>
      rw [hstr] at hres
      cases hb : s.isRecording with
      | false => rw [hb] at hres; simp at hres
      | true =>
          rw [hb] at hres
          simp only [StopOutcome.resolved.injEq] at hres
          obtain ⟨hbeq, hs2⟩ := hres
          obtain ⟨st0, rest0, hstr0, hzero, hclosed⟩ := hrec hb
          rw [hstr] at hstr0
          injection hstr0 with hst0 hrest0
          subst hst0
          subst hrest0
          refine ⟨hbeq.symm, ⟨st, rest, rfl, hzero, ?_, ?_⟩, ?_, ?_⟩
          · rw [← hs2]
          · intro c hc
            simp only [List.mem_map] at hc
            obtain ⟨c0, hc0, hcc⟩ := hc
            have := hzero c0 hc0
            omega
          · intro ev
            have hs2rec : s2.isRecording = false := by rw [← hs2]
            have hs2str : s2.streams
                = StreamS.mk (st.tracks.map (fun c => c + 1)) :: rest := by
              rw [← hs2]
            unfold VoiceMain.stopRecording
            rw [hs2str, hs2rec]
          · intro t ht ev
            unfold VoiceMain.stopRecording
            cases htr : t.streams with
            | nil => rfl
            | cons a l => rw [ht]

theorem main_stop_releases_once_witness :
    VoiceMain.stopRecording
        ⟨[⟨[0]⟩], .recording, "audio/webm;codecs=opus", ["chunk1"], true⟩
        RecorderStopEvent.stopped
      = .resolved ⟨["chunk1"], "audio/webm;codecs=opus"⟩
          ⟨[⟨[1]⟩], .inactive, "audio/webm;codecs=opus", ["chunk1"], false⟩
    ∧ (∃ st rest,
        (⟨[⟨[0]⟩], .recording, "audio/webm;codecs=opus", ["chunk1"], true⟩
          : AudioState).streams = st :: rest
        ∧ (∀ c ∈ st.tracks, c = 0)
        ∧ (⟨[⟨[1]⟩], .inactive, "audio/webm;codecs=opus", ["chunk1"], false⟩
            : AudioState).streams
          = StreamS.mk (st.tracks.map (fun c => c + 1)) :: rest
        ∧ (∀ c ∈ (st.tracks.map (fun c => c + 1)), c = 1))
    ∧ (∀ ev, VoiceMain.stopRecording
        ⟨[⟨[1]⟩], .inactive, "audio/webm;codecs=opus", ["chunk1"], false⟩ ev
      = .rejected "Not currently recording"
          ⟨[⟨[1]⟩], .inactive, "audio/webm;codecs=opus", ["chunk1"], false⟩) := by
  have hreach : MainReachable
      ⟨[⟨[0]⟩], .recording, "audio/webm;codecs=opus", ["chunk1"], true⟩ := by
    refine Relation.ReflTransGen.tail ?_
      (MainStep.chunk ⟨[⟨[0]⟩], .recording, "audio/webm;codecs=opus", [], true⟩
        "chunk1")
    exact Relation.ReflTransGen.single
      (MainStep.startOk _ _ (.granted 1) ⟨true, true, true⟩ rfl)
  have h := main_stop_releases_once _ _ _ hreach rfl
  exact ⟨rfl, h.2.1, h.2.2.1⟩

/-! ## The per-field voice session (`VoiceIntakeForm`)

The intake form component holds React state
(`voiceState : { isListening, hasPermission, error, transcript }`,
`currentField`, `formData`) and a `recordingTimeoutRef`.  A scheduled
`setTimeout` callback closes over the values of the render in which
`startListening` ran; later `setVoiceState`/`setCurrentField` updates do
not change what that closure sees.  The model therefore stores, next to
the live state, the snapshot captured by the pending timer callback. -/

/-- The closure values a scheduled callback captured: `voiceState
.isListening` and `currentField` as of the render that created it. -/
structure Snapshot where
  isListening : Bool
  currentField : Option String
deriving DecidableEq, Repr

/-- Live component state (`isSupported` is the constant `true` in the
source and is omitted).  `timerSnapshot` is the pending auto-stop timer's
captured closure, `none` when no timer is scheduled. -/
structure IntakeState where
  isListening : Bool
  hasPermission : Bool
  error : String
  transcript : String
  currentField : Option String
  formData : List (String × String)
  timerSnapshot : Option Snapshot
deriving DecidableEq, Repr

/-- Initial component state after the microphone permission was granted:
all nine form fields empty, nothing recording, no timer. -/
def intakeInitial : IntakeState :=
  { isListening := false, hasPermission := true, error := ""
    transcript := "", currentField := none
    formData := [("firstName", ""), ("lastName", ""), ("dateOfBirth", "")
      , ("phone", ""), ("address", ""), ("chiefComplaint", "")
      , ("allergies", ""), ("medications", ""), ("medicalHistory", "")]
    timerSnapshot := none }

/-- Read `formData[field]` (fields always exist in the source's record;
absent keys default to the empty string). -/
def getField (fs : List (String × String)) (k : String) : String :=
  match fs with
  | [] => ""
  | (a, v) :: rest => if a = k then v else getField rest k

/-- Write `formData[field] := v`. -/
def setField (fs : List (String × String)) (k v : String) :
    List (String × String) :=
  match fs with
  | [] => []
  | (a, w) :: rest =>
      (if a = k then (a, v) else (a, w)) :: setField rest k v

/-- Whether the record has the field (the source's `FormData` always
does; this names the assumption for the lemmas below). -/
def hasField (fs : List (String × String)) (k : String) : Bool :=
  fs.any (fun p => p.1 = k)

/-- The merge of `stopListening`'s success branch:
`currentValue + (currentValue ? const-space : const-empty) + result.text.trim()`. -/
def appendTranscript (currentValue text : String) : String :=
  currentValue ++ (if currentValue ≠ "" then " " else "") ++ jsTrim text

/-- The status message the success branch stores in `voiceState.error`:
`✓ Transcribed successfully` plus, when `result.confidence` is truthy,
` (N% confidence)` with `N = Math.round(confidence * 100)` (round half
up). -/
def successMessage (confidence : Option ℚ) : String :=
  "✓ Transcribed successfully" ++
    (match confidence with
     | none => ""
     | some q =>
         if q = 0 then ""
         else " (" ++ toString ((q * 100 + 1/2).floor) ++ "% confidence)")

/-- How `voiceAPI.stopRecording()` settles inside `stopListening`:
resolves with the blob, or throws with a message. -/
inductive StopAudioOutcome
  | ok (blob : BlobM)
  | err (msg : String)
deriving DecidableEq, Repr

/-- `stopListening`, as invoked through the closure `snap` (for a
user-initiated stop these are the current render's values; for the timer
callback they are the stale captured ones).  Mirrors the source: early
return when the closure sees no active listening or no current field;
otherwise status updates, the stop/transcribe pipeline, the four result
branches, and the `finally` block (clear `currentField`, clear the
timer). -/
def stopListening (snap : Snapshot) (audio : StopAudioOutcome)
    (result : VoiceTranscriptionResult) (s : IntakeState) : IntakeState :=
  if snap.isListening = false ∨ snap.currentField = none then s
  else
    match snap.currentField with
    | none => s
    | some field =>
        let s1 := { s with error := "Processing audio..." }
        match audio with
        | .err msg =>
            { s1 with isListening := false
                      error := jsOrS msg "Failed to process voice recording"
                      currentField := none
                      timerSnapshot := none }
        | .ok _ =>
            let s2 := { s1 with isListening := false
                                error := "Transcribing audio..." }
            if jsTruthyOpt result.error then
              { s2 with
                  error := jsOrS (result.error.getD "")
                    "Failed to transcribe audio"
                  currentField := none
                  timerSnapshot := none }
            else if result.text ≠ "" then
              { s2 with
                  formData := setField s2.formData field
                    (appendTranscript (getField s2.formData field) result.text)
                  transcript := result.text
                  error := successMessage result.confidence
                  currentField := none
                  timerSnapshot := none }
            else
              { s2 with
                  error := "No speech detected. Please try speaking more clearly."
                  currentField := none
                  timerSnapshot := none }

/-- The success notice's scheduled 3-second clear
(`setVoiceState(prev => { ...prev, error: const-empty })`; a functional
update, so no stale closure here). -/
def clearStatusTimer (s : IntakeState) : IntakeState := { s with error := "" }

/-- The auto-stop deadline `startListening` schedules
(`setTimeout(..., 30000)`), in milliseconds. -/
def autoStopMillis : Nat := 30000

/-- The fresh-start path of `startListening` (closure sees
`isListening = false`, permission already granted, `startRecording`
succeeds): set the current field, mark listening, clear error and
transcript, and schedule the auto-stop timer — whose callback captures
THIS render's `voiceState`/`currentField`, i.e. the pre-update values. -/
def startListeningFresh (s : IntakeState) (field : String) : IntakeState :=
  { s with currentField := some field
           isListening := true
           error := ""
           transcript := ""
           timerSnapshot := some ⟨s.isListening, s.currentField⟩ }

/-- The auto-stop timer firing 30 s later: the callback runs
`if (voiceState.isListening) { await stopListening(); }` where
`voiceState` (and, inside `stopListening`, `currentField`) are the
captured snapshot, not the live values. -/
def timerFire (s : IntakeState) (audio : StopAudioOutcome)
    (result : VoiceTranscriptionResult) : IntakeState :=
  match s.timerSnapshot with
  | none => s
  | some snap =>
      if snap.isListening then
        stopListening snap audio result { s with timerSnapshot := none }
      else { s with timerSnapshot := none }

theorem getField_setField (fs : List (String × String)) (k v : String)
    (h : hasField fs k = true) :
    getField (setField fs k v) k = v := by
  induction fs with
  | nil => simp [hasField] at h
  | cons p rest ih =>
      obtain ⟨a, w⟩ := p
      by_cases hk : a = k
      · simp only [setField]
        rw [if_pos hk]
        simp only [getField]
        rw [if_pos hk]
      · simp only [setField]
        rw [if_neg hk]
        simp only [getField]
        rw [if_neg hk]
        apply ih
        simp only [hasField, List.any_cons, Bool.or_eq_true,
          decide_eq_true_eq] at h
        rcases h with h1 | h1
        · exact absurd h1 hk
        · simpa [hasField] using h1

/-- Reduction of `stopListening`'s success branch when invoked with a
live closure (`isListening = true`, a current field) on a non-error,
non-empty transcription result. -/
theorem stopListening_success (field : String) (s : IntakeState)
    (blob : BlobM) (result : VoiceTranscriptionResult)
    (herr : result.error = none) (htext : result.text ≠ "") :
    stopListening ⟨true, some field⟩ (.ok blob) result s
      = { s with
            isListening := false
            formData := setField s.formData field
              (appendTranscript (getField s.formData field) result.text)
            transcript := result.text
            error := successMessage result.confidence
            currentField := none
            timerSnapshot := none } := by
  unfold stopListening
  simp [herr, jsTruthyOpt, htext]

/-! ## Claim C6: the 30-second auto-stop deadline -/

/-- C6 evaluation at the failing input: a session started fresh (the user
clicks start while idle, so the click-time render has
`isListening = false` and `currentField = none`).  The scheduled timer
callback captured exactly that stale snapshot; when it fires 30 s later,
its guard `if (voiceState.isListening)` reads the captured `false`, so it
does NOT invoke the stop transition: the session is still listening and
still on its field after the deadline, contradicting the auto-stop.  Even
a direct `stopListening` through the stale closure would return
immediately (last conjunct). -/
theorem autostop_timer_never_stops (audio : StopAudioOutcome)
    (result : VoiceTranscriptionResult) (s : IntakeState) :
    autoStopMillis = 30000
    ∧ (startListeningFresh intakeInitial "chiefComplaint").isListening = true
    ∧ (startListeningFresh intakeInitial "chiefComplaint").timerSnapshot
        = some ⟨false, none⟩
    ∧ timerFire (startListeningFresh intakeInitial "chiefComplaint")
        audio result
      = { startListeningFresh intakeInitial "chiefComplaint" with
            timerSnapshot := none }
    ∧ (timerFire (startListeningFresh intakeInitial "chiefComplaint")
        audio result).isListening = true
    ∧ (timerFire (startListeningFresh intakeInitial "chiefComplaint")
        audio result).currentField = some "chiefComplaint"
    ∧ stopListening ⟨false, none⟩ audio result s = s := by
  refine ⟨rfl, rfl, rfl, rfl, rfl, rfl, ?_⟩
  unfold stopListening
  simp

/-! ## Claim C9: the success transition into the target field -/

/-- C9 counterexample: on a successful transcription the target field IS
appended to (space-joined, prior content preserved), but the error state
is NOT cleared by the transition — the success branch stores the notice
"✓ Transcribed successfully" in `voiceState.error`, which is nonempty. -/
theorem success_transition_error_not_cleared :
    getField (stopListening ⟨true, some "chiefComplaint"⟩
        (.ok ⟨[], "audio/webm"⟩) ⟨" fever ", none, none⟩
        ⟨true, true, "previous error", "", some "chiefComplaint",
          [("chiefComplaint", "I have")], some ⟨false, none⟩⟩).formData
        "chiefComplaint"
      = "I have fever"
    ∧ (stopListening ⟨true, some "chiefComplaint"⟩
        (.ok ⟨[], "audio/webm"⟩) ⟨" fever ", none, none⟩
        ⟨true, true, "previous error", "", some "chiefComplaint",
          [("chiefComplaint", "I have")], some ⟨false, none⟩⟩).error
      = "✓ Transcribed successfully"
    ∧ (stopListening ⟨true, some "chiefComplaint"⟩
        (.ok ⟨[], "audio/webm"⟩) ⟨" fever ", none, none⟩
        ⟨true, true, "previous error", "", some "chiefComplaint",
          [("chiefComplaint", "I have")], some ⟨false, none⟩⟩).error
      ≠ "" := ⟨by decide, by decide, by decide⟩

/-- C9 (amended): for every success transition (no error, non-empty
text) invoked with the live closure, the owning field's new content is
the prior content, a single separating space when the prior content was
non-empty, then the trimmed transcribed text — appended, never
overwritten; the prior error message is replaced by the transient
success notice held in the same status field, and only the scheduled
3-second clear resets it to empty. -/
theorem success_appends_space_joined (field : String) (s : IntakeState)
    (blob : BlobM) (result : VoiceTranscriptionResult)
    (hmem : hasField s.formData field = true)
    (herr : result.error = none) (htext : result.text ≠ "") :
    getField (stopListening ⟨true, some field⟩ (.ok blob) result s).formData
        field
      = getField s.formData field
        ++ (if getField s.formData field ≠ "" then " " else "")
        ++ jsTrim result.text
    ∧ (stopListening ⟨true, some field⟩ (.ok blob) result s).error
      = successMessage result.confidence
    ∧ (clearStatusTimer
        (stopListening ⟨true, some field⟩ (.ok blob) result s)).error
      = "" := by
  rw [stopListening_success field s blob result herr htext]
  refine ⟨?_, rfl, rfl⟩
  have h := getField_setField s.formData field
    (appendTranscript (getField s.formData field) result.text) hmem
  simpa [appendTranscript] using h

theorem success_appends_space_joined_witness :
    hasField [("chiefComplaint", "I have")] "chiefComplaint" = true
    ∧ getField (stopListening ⟨true, some "chiefComplaint"⟩
        (.ok ⟨[], "audio/webm"⟩) ⟨"fever", some 1, none⟩
        ⟨true, true, "old", "", some "chiefComplaint",
          [("chiefComplaint", "I have")], none⟩).formData "chiefComplaint"
      = getField [("chiefComplaint", "I have")] "chiefComplaint"
        ++ (if getField [("chiefComplaint", "I have")] "chiefComplaint" ≠ ""
            then " " else "")
        ++ jsTrim "fever"
    ∧ (stopListening ⟨true, some "chiefComplaint"⟩
        (.ok ⟨[], "audio/webm"⟩) ⟨"fever", some 1, none⟩
        ⟨true, true, "old", "", some "chiefComplaint",
          [("chiefComplaint", "I have")], none⟩).error
      = successMessage (some 1)
    ∧ (clearStatusTimer (stopListening ⟨true, some "chiefComplaint"⟩
        (.ok ⟨[], "audio/webm"⟩) ⟨"fever", some 1, none⟩
        ⟨true, true, "old", "", some "chiefComplaint",
          [("chiefComplaint", "I have")], none⟩)).error = "" := by
  refine ⟨rfl, ?_⟩
  exact success_appends_space_joined "chiefComplaint"
    ⟨true, true, "old", "", some "chiefComplaint",
      [("chiefComplaint", "I have")], none⟩
    ⟨[], "audio/webm"⟩ ⟨"fever", some 1, none⟩ rfl rfl (by decide)
